import Mathlib

/-!
Verification of the webcam capture controller
(`src/PhysioKit2/utils/webcam_capture.py`, class `Webcam_Capture_Thread`).

The controller state machine is embedded shallowly:

* `CtrlState` mirrors the mutable fields of `Webcam_Capture_Thread`.
* The file system is an association list from path names to file contents
  (`FS`); `shutil.move`, `os.remove`, `os.path.exists` become `fsMove`,
  `fsRemove`, `fsExists`.
* External, asynchronous inputs (the value of a shared flag at the moment
  the loop reads it, the result of `cap.read()`, the wall clock, the
  elapsed work time of an iteration) are supplied as a trace of `Tick`s;
  the inner recording loop (`run`, lines 94-112) becomes the trace-driven
  recursion `recLoop`.
* The body of the `if self.start_recording:` branch of `run` (lines 63-128)
  becomes `startBranch`; `Webcam_Capture_Thread.stop` becomes `stop`
  (parameterised by which `os.remove` calls succeed, since failures are
  swallowed); the outer `while not self.stop_flag` loop becomes `runLoop`,
  driven by a list of `OuterEvent`s.
* Buffered writers (`cv2.VideoWriter`, `csv.writer` over an open file) are
  modelled as in-memory buffers flushed to the file system at
  `writer.release()` / `ts_file.close()`; the files themselves are created
  on disk at open time.
-/

namespace WebcamCapture

/-- Rows of the timestamp-index CSV file: the header written at line 87,
and one data row per successful frame read (line 101). Timestamps are
modelled as values of a linear order (`Nat`), standing for the sortable
ISO-8601 strings produced by `datetime.now().isoformat()`. -/
inductive CsvRow where
  | header : CsvRow
  | data : Nat → Nat → CsvRow
deriving DecidableEq, Repr

/-- Contents of a file on disk: an MJPG video holding a number of frames,
or a CSV file holding a list of rows. -/
inductive FileData where
  | video : Nat → FileData
  | csv : List CsvRow → FileData
deriving DecidableEq, Repr

/-- The file system: an association list from path names to contents. -/
def FS : Type := List (String × FileData)

instance : DecidableEq FS := by
  unfold FS
  infer_instance

instance : Repr FS := by
  unfold FS
  infer_instance

/-- Look up the contents of a path. -/
def fsLookup (fs : FS) (p : String) : Option FileData :=
  (fs.find? (fun e => e.1 == p)).map Prod.snd

/-- Model of `os.path.exists`. -/
def fsExists (fs : FS) (p : String) : Bool :=
  (fsLookup fs p).isSome

/-- Model of `os.remove` (when it succeeds). -/
def fsRemove (fs : FS) (p : String) : FS :=
  fs.filter (fun e => !(e.1 == p))

/-- Create or overwrite a file. -/
def fsSet (fs : FS) (p : String) (d : FileData) : FS :=
  (p, d) :: fsRemove fs p

/-- Model of `shutil.move src dst`: a rename. The callers in the source
guard the call with `os.path.exists(src)`, so the no-file case is inert. -/
def fsMove (fs : FS) (src dst : String) : FS :=
  match fsLookup fs src with
  | none => fs
  | some d => fsSet (fsRemove fs src) dst d

/-- The device handle (`cv2.VideoCapture`): opaque except for `isOpened()`
and its reported frame dimensions. -/
structure Cap where
  isOpened : Bool
  width : Nat
  height : Nat
deriving DecidableEq, Repr

/-- The mutable fields of `Webcam_Capture_Thread` (constructor, lines
21-39). `target_fps` is a rational standing for the Python float. -/
structure CtrlState where
  target_fps : ℚ
  stop_flag : Bool
  start_recording : Bool
  stop_recording : Bool
  is_recording : Bool
  cap : Option Cap
  final_video_path : String
  final_timestamps_path : String
  temp_video_path : String
  temp_timestamps_path : String
deriving DecidableEq, Repr

/-- One iteration's worth of external input to the recording loop
(lines 94-112): the value of the shared `stop_flag` when the loop head
reads it, the result `ret` of `self.cap.read()`, the wall-clock value
`ts` taken at line 99, the value of the shared `stop_recording` when
line 104 reads it, and the measured work time `elapsed` of the
iteration. -/
structure Tick where
  stopFlagAtHead : Bool
  ret : Bool
  ts : Nat
  stopRec : Bool
  elapsed : ℚ
deriving DecidableEq, Repr

/-- How the inner recording loop was left: by an end-request
(`stop_recording`, the `break` at line 107), by observing `stop_flag` at
the loop head, or because the supplied trace ran out while the loop was
still recording. -/
inductive ExitKind where
  | endRequest : ExitKind
  | stopFlag : ExitKind
  | exhausted : ExitKind
deriving DecidableEq, Repr

/-- The loop-local accumulators of the recording loop: `frame_number`
(line 89), the frames written to the video writer's buffer, the rows
written to the CSV writer's buffer, and the sequence of actual sleep
durations performed at line 112 (an iteration that skips the `time.sleep`
call contributes `0`). -/
structure LoopAcc where
  frame_number : Nat
  vbuf : Nat
  tsbuf : List CsvRow
  sleeps : List ℚ
deriving DecidableEq, Repr

/-- The inner recording loop, lines 94-112 of `run`: while recording, read
a frame; on success write it, append `(frame_number, timestamp)` to the
index and increment `frame_number`; then honour an end-request; otherwise
sleep the remainder of the frame interval and continue. -/
def recLoop (frame_interval : ℚ) (acc : LoopAcc) : List Tick → LoopAcc × ExitKind
  | [] => (acc, ExitKind.exhausted)
  | t :: rest =>
    if t.stopFlagAtHead = true then
      (acc, ExitKind.stopFlag)
    else
      let acc1 :=
        if t.ret = true then
          { acc with
            vbuf := acc.vbuf + 1
            tsbuf := acc.tsbuf ++ [CsvRow.data acc.frame_number t.ts]
            frame_number := acc.frame_number + 1 }
        else acc
      if t.stopRec = true then
        (acc1, ExitKind.endRequest)
      else
        let sleep_time := frame_interval - t.elapsed
        let acc2 :=
          { acc1 with
            sleeps := acc1.sleeps ++ [if sleep_time > 0 then sleep_time else 0] }
        recLoop frame_interval acc2 rest

/-- Status string emitted at lines 68-69. -/
def unavailableMsg : String := "Webcam not available. Video will not be recorded."

/-- Status string emitted at line 92. -/
def startedMsg : String := "Webcam recording started."

/-- Status string emitted at lines 124-125. -/
def savedMsg (n : Nat) : String :=
  "Webcam recording saved (" ++ toString n ++ " frames)."

/-- The condition at line 67, `self.cap is None or not self.cap.isOpened()`,
negated: the device handle is present and open. -/
def capAvailable : Option Cap → Bool
  | none => false
  | some c => c.isOpened

/-- Everything observable about one pass through the
`if self.start_recording:` branch: the controller state and file system
afterwards, the statuses emitted during the pass, the rows the CSV writer
wrote, the frames the video writer wrote, the sleeps performed, and how
the recording loop exited (`none` when the device was unavailable and no
recording loop ran). -/
structure SessionResult where
  state : CtrlState
  fs : FS
  statuses : List String
  tsRows : List CsvRow
  vframes : Nat
  sleeps : List ℚ
  exit : Option ExitKind
deriving DecidableEq, Repr

/-- Lines 73-128 of `run`: the recording session proper, entered once the
device handle has been checked. Derives the temp file names, creates both
working files, writes the CSV header, runs the recording loop, then
releases and clears the device handle, flushes and closes both writers,
moves each working artifact to its final path when one is set, emits the
saved status, and clears the final-path fields. -/
def recordSession (s0 : CtrlState) (fs0 : FS) (tempBase : String)
    (ticks : List Tick) : SessionResult :=
  let temp_video := tempBase ++ ".avi"
  let temp_ts := tempBase ++ "_timestamps.csv"
  let s1 := { s0 with temp_video_path := temp_video, temp_timestamps_path := temp_ts }
  let fs1 := fsSet fs0 temp_video (FileData.video 0)
  let fs2 := fsSet fs1 temp_ts (FileData.csv [])
  let acc0 : LoopAcc := { frame_number := 0, vbuf := 0, tsbuf := [CsvRow.header], sleeps := [] }
  let frame_interval := 1 / s1.target_fps
  let p := recLoop frame_interval acc0 ticks
  let s2 :=
    if p.2 = ExitKind.endRequest then
      { s1 with is_recording := false, stop_recording := false }
    else s1
  let s3 := { s2 with cap := none }
  let fs3 := fsSet fs2 temp_video (FileData.video p.1.vbuf)
  let fs4 := fsSet fs3 temp_ts (FileData.csv p.1.tsbuf)
  let fs5 :=
    if s3.final_video_path != "" && fsExists fs4 temp_video then
      fsMove fs4 temp_video s3.final_video_path
    else fs4
  let fs6 :=
    if s3.final_timestamps_path != "" && fsExists fs5 temp_ts then
      fsMove fs5 temp_ts s3.final_timestamps_path
    else fs5
  let s4 := { s3 with final_video_path := "", final_timestamps_path := "" }
  { state := s4
    fs := fs6
    statuses := [startedMsg, savedMsg p.1.frame_number]
    tsRows := p.1.tsbuf
    vframes := p.1.vbuf
    sleeps := p.1.sleeps
    exit := some p.2 }

/-- Lines 63-128 of `run`: the `if self.start_recording:` branch. Clears
the begin-request, raises `is_recording`, and either aborts with the
unavailable status (lines 67-71, `continue`) or runs the session. -/
def startBranch (s0 : CtrlState) (fs : FS) (tempBase : String)
    (ticks : List Tick) : SessionResult :=
  let s1 := { s0 with start_recording := false, is_recording := true }
  if capAvailable s1.cap = true then
    recordSession s1 fs tempBase ticks
  else
    { state := { s1 with is_recording := false }
      fs := fs
      statuses := [unavailableMsg]
      tsRows := []
      vframes := 0
      sleeps := []
      exit := none }

/-- The method `Webcam_Capture_Thread.stop` (lines 45-58): raise both stop
flags, wait out the grace period, release the device handle if open,
terminate the worker, then best-effort delete both working files,
swallowing deletion failures. `removeOk p` tells whether the `os.remove`
call on `p` succeeds; on failure the `except: pass` leaves the file in
place and the method continues. -/
def stop (s0 : CtrlState) (fs0 : FS) (removeOk : String → Bool) : CtrlState × FS :=
  let s1 := { s0 with stop_flag := true, stop_recording := true }
  let s2 :=
    match s1.cap with
    | some c => if c.isOpened then { s1 with cap := some { c with isOpened := false } } else s1
    | none => s1
  let fs1 :=
    if s2.temp_video_path != "" && fsExists fs0 s2.temp_video_path then
      (if removeOk s2.temp_video_path then fsRemove fs0 s2.temp_video_path else fs0)
    else fs0
  let fs2 :=
    if s2.temp_timestamps_path != "" && fsExists fs1 s2.temp_timestamps_path then
      (if removeOk s2.temp_timestamps_path then fsRemove fs1 s2.temp_timestamps_path else fs1)
    else fs1
  (s2, fs2)

/-- External input to one iteration of the outer `while not self.stop_flag`
loop of `run` (lines 61-131): either the observer has set
`start_recording` (with the wall-clock-derived temp basename and the
recording-loop trace for the session that follows), or it has not and the
loop sleeps 0.1 s. -/
inductive OuterEvent where
  | begin : String → List Tick → OuterEvent
  | idle : OuterEvent

/-- The outer loop of `run`: at each head, stop when `stop_flag` is raised;
otherwise process a begin-request through `startBranch` or sleep through
an idle tick. Returns the final state, the file system, and the
concatenation of all statuses emitted. -/
def runLoop (s : CtrlState) (fs : FS) (log : List String) :
    List OuterEvent → CtrlState × FS × List String
  | [] => (s, fs, log)
  | e :: rest =>
    if s.stop_flag = true then
      (s, fs, log)
    else
      match e with
      | OuterEvent.idle => runLoop s fs log rest
      | OuterEvent.begin tb ticks =>
        let r := startBranch { s with start_recording := true } fs tb ticks
        runLoop r.state r.fs (log ++ r.statuses) rest

/-! Helper functions describing which part of a trace the recording loop
actually processes, and what it writes. These are proof-side companions of
`recLoop`, characterised against it below. -/

/-- The prefix of the trace the recording loop consumes: ticks up to but
excluding a tick whose loop-head `stop_flag` read is true, and up to and
including a tick whose `stop_recording` read is true. -/
def consumed : List Tick → List Tick
  | [] => []
  | t :: rest =>
    if t.stopFlagAtHead = true then []
    else if t.stopRec = true then [t]
    else t :: consumed rest

/-- The ticks on which the loop runs its pacing sleep: the consumed ticks
except one that breaks out via the end-request. -/
def continuingTicks : List Tick → List Tick
  | [] => []
  | t :: rest =>
    if t.stopFlagAtHead = true then []
    else if t.stopRec = true then []
    else t :: continuingTicks rest

/-- The data rows the loop appends to the index, starting from frame
number `fn`. -/
def newRows (fn : Nat) : List Tick → List CsvRow
  | [] => []
  | t :: rest =>
    if t.stopFlagAtHead = true then []
    else if t.ret = true then
      CsvRow.data fn t.ts :: (if t.stopRec = true then [] else newRows (fn + 1) rest)
    else if t.stopRec = true then []
    else newRows fn rest

/-- How the loop exits on a given trace; depends only on the two stop
observations, never on read results. -/
def exitSpec : List Tick → ExitKind
  | [] => ExitKind.exhausted
  | t :: rest =>
    if t.stopFlagAtHead = true then ExitKind.stopFlag
    else if t.stopRec = true then ExitKind.endRequest
    else exitSpec rest

/-- Frame-number field of an index row, if it is a data row. -/
def getFn : CsvRow → Option Nat
  | CsvRow.header => none
  | CsvRow.data fn _ => some fn

/-- Timestamp field of an index row, if it is a data row. -/
def getTs : CsvRow → Option Nat
  | CsvRow.header => none
  | CsvRow.data _ ts => some ts

/-- Number of successful frame reads in the consumed prefix of a trace. -/
def goodReads (ticks : List Tick) : Nat :=
  (consumed ticks).countP (fun t => t.ret)

/-- The working files as created at session start (lines 81-87) and
flushed at close (lines 116-117): the video file at `tv` holding `n`
frames and the index file at `tt` holding `rows`. -/
def closedFs (tv tt : String) (n : Nat) (rows : List CsvRow) (fs : FS) : FS :=
  fsSet (fsSet (fsSet (fsSet fs tv (FileData.video 0)) tt (FileData.csv []))
    tv (FileData.video n)) tt (FileData.csv rows)

/-- One finalization move (lines 119-120 or 121-122): move the working
file at `src` to `finalPath` when a final path was supplied and the
working file exists. -/
def moveStep (finalPath src : String) (fs : FS) : FS :=
  if finalPath != "" && fsExists fs src then fsMove fs src finalPath else fs

/-- The file system produced by a whole session: working files written and
closed, then each moved to its final path when one was set. -/
def finalizeFs (fvp ftp tv tt : String) (n : Nat) (rows : List CsvRow) (fs : FS) : FS :=
  moveStep ftp tt (moveStep fvp tv (closedFs tv tt n rows fs))

/-! Concrete sample inputs used by the witness theorems. -/

/-- An open device handle. -/
def sampleCap : Cap := { isOpened := true, width := 640, height := 480 }

/-- A freshly constructed controller holding an open handle, with the
begin-request raised and no final paths set. -/
def sampleState : CtrlState :=
  { target_fps := 30, stop_flag := false, start_recording := true,
    stop_recording := false, is_recording := false, cap := some sampleCap,
    final_video_path := "", final_timestamps_path := "",
    temp_video_path := "", temp_timestamps_path := "" }

/-- A three-tick session trace: a successful read, a failed read whose
iteration overruns the frame period, and a successful read on which the
end-request is observed. -/
def sampleTicks : List Tick :=
  [ { stopFlagAtHead := false, ret := true, ts := 3, stopRec := false, elapsed := 0 },
    { stopFlagAtHead := false, ret := false, ts := 4, stopRec := false, elapsed := 2 },
    { stopFlagAtHead := false, ret := true, ts := 5, stopRec := true, elapsed := 0 } ]

/-- A controller with no device handle supplied. -/
def c3State : CtrlState := { sampleState with cap := none }

/-- A controller about to record with final paths supplied. -/
def c4State : CtrlState :=
  { sampleState with final_video_path := "out.avi", final_timestamps_path := "out_ts.csv" }

/-- A one-tick trace: one successful read on which the end-request is
observed. -/
def c5Ticks : List Tick :=
  [ { stopFlagAtHead := false, ret := true, ts := 1, stopRec := true, elapsed := 0 } ]

/-- A controller mid-session, with working files on disk. -/
def c6State : CtrlState :=
  { sampleState with temp_video_path := "w.avi", temp_timestamps_path := "w_ts.csv" }

/-- The on-disk working artifacts for the forced-stop witness. -/
def c6Fs : FS := [("w.avi", FileData.video 3), ("w_ts.csv", FileData.csv [CsvRow.header])]

/-- A session trace on which the loop observes the raised stop flag at the
head of its second iteration. -/
def c10Ticks : List Tick :=
  [ { stopFlagAtHead := false, ret := true, ts := 1, stopRec := false, elapsed := 0 },
    { stopFlagAtHead := true, ret := false, ts := 2, stopRec := false, elapsed := 0 } ]

theorem recLoop_fst (fi : ℚ) (acc : LoopAcc) (ticks : List Tick) :
    (recLoop fi acc ticks).1 =
      { frame_number := acc.frame_number + goodReads ticks
        vbuf := acc.vbuf + goodReads ticks
        tsbuf := acc.tsbuf ++ newRows acc.frame_number ticks
        sleeps := acc.sleeps ++ (continuingTicks ticks).map
          (fun t => if fi - t.elapsed > 0 then fi - t.elapsed else 0) } := by
  induction ticks generalizing acc with
  | nil => simp [recLoop, goodReads, consumed, newRows, continuingTicks]
  | cons t rest ih =>
    by_cases h1 : t.stopFlagAtHead = true
    · simp [recLoop, goodReads, consumed, newRows, continuingTicks, h1]
    · by_cases h3 : t.stopRec = true
      · by_cases h2 : t.ret = true
        · simp [recLoop, goodReads, consumed, newRows, continuingTicks, h1, h2, h3,
            List.countP_cons]
        · simp [recLoop, goodReads, consumed, newRows, continuingTicks, h1, h2, h3,
            List.countP_cons]
      · by_cases h2 : t.ret = true
        · simp [recLoop, goodReads, consumed, newRows, continuingTicks, h1, h2, h3,
            List.countP_cons, ih]
          all_goals omega
        · simp [recLoop, goodReads, consumed, newRows, continuingTicks, h1, h2, h3,
            List.countP_cons, ih]

theorem recLoop_snd (fi : ℚ) (acc : LoopAcc) (ticks : List Tick) :
    (recLoop fi acc ticks).2 = exitSpec ticks := by
  induction ticks generalizing acc with
  | nil => simp [recLoop, exitSpec]
  | cons t rest ih =>
    by_cases h1 : t.stopFlagAtHead = true
    · simp [recLoop, exitSpec, h1]
    · by_cases h3 : t.stopRec = true
      · by_cases h2 : t.ret = true
        · simp [recLoop, exitSpec, h1, h2, h3]
        · simp [recLoop, exitSpec, h1, h2, h3]
      · by_cases h2 : t.ret = true
        · simp [recLoop, exitSpec, h1, h2, h3, ih]
        · simp [recLoop, exitSpec, h1, h2, h3, ih]

theorem newRows_filterMap_getFn (fn : Nat) (ticks : List Tick) :
    (newRows fn ticks).filterMap getFn = List.range' fn (goodReads ticks) := by
  induction ticks generalizing fn with
  | nil => simp [newRows, goodReads, consumed]
  | cons t rest ih =>
    by_cases h1 : t.stopFlagAtHead = true
    · simp [newRows, goodReads, consumed, h1]
    · by_cases h3 : t.stopRec = true
      · by_cases h2 : t.ret = true
        · simp [newRows, goodReads, consumed, h1, h2, h3, getFn, List.countP_cons]
        · simp [newRows, goodReads, consumed, h1, h2, h3, List.countP_cons]
      · by_cases h2 : t.ret = true
        · simp [newRows, goodReads, consumed, h1, h2, h3, getFn, List.countP_cons, ih,
            List.range'_succ]
        · simp [newRows, goodReads, consumed, h1, h2, h3, List.countP_cons, ih]

theorem newRows_filterMap_getTs (fn : Nat) (ticks : List Tick) :
    (newRows fn ticks).filterMap getTs =
      ((consumed ticks).filter (fun t => t.ret)).map (fun t => t.ts) := by
  induction ticks generalizing fn with
  | nil => simp [newRows, consumed]
  | cons t rest ih =>
    by_cases h1 : t.stopFlagAtHead = true
    · simp [newRows, consumed, h1]
    · by_cases h3 : t.stopRec = true
      · by_cases h2 : t.ret = true
        · simp [newRows, consumed, h1, h2, h3, getTs]
        · simp [newRows, consumed, h1, h2, h3]
      · by_cases h2 : t.ret = true
        · simp [newRows, consumed, h1, h2, h3, getTs, ih]
        · simp [newRows, consumed, h1, h2, h3, ih]

theorem newRows_length (fn : Nat) (ticks : List Tick) :
    (newRows fn ticks).length = goodReads ticks := by
  have h := newRows_filterMap_getFn fn ticks
  have hlen : ((newRows fn ticks).filterMap getFn).length = goodReads ticks := by
    rw [h]; simp
  rw [← hlen]
  clear h hlen
  induction ticks generalizing fn with
  | nil => simp [newRows]
  | cons t rest ih =>
    by_cases h1 : t.stopFlagAtHead = true
    · simp [newRows, h1]
    · by_cases h3 : t.stopRec = true
      · by_cases h2 : t.ret = true
        · simp [newRows, h1, h2, h3, getFn]
        · simp [newRows, h1, h2, h3]
      · by_cases h2 : t.ret = true
        · simp [newRows, h1, h2, h3, getFn, ih]
        · simp [newRows, h1, h2, h3, ih]

theorem consumed_sublist (ticks : List Tick) : List.Sublist (consumed ticks) ticks := by
  induction ticks with
  | nil => simp [consumed]
  | cons t rest ih =>
    by_cases h1 : t.stopFlagAtHead = true
    · simp [consumed, h1]
    · by_cases h3 : t.stopRec = true
      · simp only [consumed, h1, h3, if_true, if_false]
        exact (List.nil_sublist rest).cons₂ t
      · simp only [consumed, h1, h3, if_true, if_false]
        exact ih.cons₂ t

theorem fsLookup_nil (p : String) : fsLookup [] p = none := rfl

theorem fsLookup_fsRemove_self (fs : FS) (p : String) :
    fsLookup (fsRemove fs p) p = none := by
  induction fs with
  | nil => rfl
  | cons e rest ih =>
    by_cases he : e.1 = p
    · simp [fsRemove, fsLookup, List.filter_cons, he] at *
    · simp [fsRemove, fsLookup, List.filter_cons, he, List.find?_cons] at *

theorem fsLookup_fsRemove_ne {p q : String} (h : q ≠ p) (fs : FS) :
    fsLookup (fsRemove fs p) q = fsLookup fs q := by
  induction fs with
  | nil => rfl
  | cons e rest ih =>
    by_cases he : e.1 = p
    · have hpq : (p == q) = false := by simp [Ne.symm h]
      simp [fsRemove, fsLookup, List.filter_cons, he, List.find?_cons, hpq]
      simpa [fsRemove, fsLookup] using ih
    · by_cases heq : e.1 = q
      · simp [fsRemove, fsLookup, List.filter_cons, he, List.find?_cons, heq, h]
      · simp [fsRemove, fsLookup, List.filter_cons, he, List.find?_cons, heq]
        simpa [fsRemove, fsLookup] using ih

theorem fsLookup_fsSet_self (fs : FS) (p : String) (d : FileData) :
    fsLookup (fsSet fs p d) p = some d := by
  simp [fsSet, fsLookup, List.find?_cons]

theorem fsLookup_fsSet_ne {p q : String} (h : q ≠ p) (fs : FS) (d : FileData) :
    fsLookup (fsSet fs p d) q = fsLookup fs q := by
  have := fsLookup_fsRemove_ne h fs
  simp [fsSet, fsLookup, List.find?_cons, Ne.symm h] at *
  simpa [fsRemove, fsLookup] using this

theorem fsExists_eq (fs : FS) (p : String) :
    fsExists fs p = (fsLookup fs p).isSome := rfl

theorem temp_video_ne_temp_ts (tb : String) :
    tb ++ ".avi" ≠ tb ++ "_timestamps.csv" := by
  intro h
  have hl := congrArg String.length h
  simp [String.length_append] at hl
  exact absurd hl (by decide)

/-! Unfolding lemmas for `recordSession` and `startBranch`, phrased through
the trace-level helper functions. -/

theorem recordSession_tsRows (s : CtrlState) (fs : FS) (tb : String) (ticks : List Tick) :
    (recordSession s fs tb ticks).tsRows = CsvRow.header :: newRows 0 ticks := by
  simp [recordSession, recLoop_fst]

theorem recordSession_vframes (s : CtrlState) (fs : FS) (tb : String) (ticks : List Tick) :
    (recordSession s fs tb ticks).vframes = goodReads ticks := by
  simp [recordSession, recLoop_fst]

theorem recordSession_statuses (s : CtrlState) (fs : FS) (tb : String) (ticks : List Tick) :
    (recordSession s fs tb ticks).statuses = [startedMsg, savedMsg (goodReads ticks)] := by
  simp [recordSession, recLoop_fst]

theorem recordSession_sleeps (s : CtrlState) (fs : FS) (tb : String) (ticks : List Tick) :
    (recordSession s fs tb ticks).sleeps = (continuingTicks ticks).map
      (fun t => if 1 / s.target_fps - t.elapsed > 0 then 1 / s.target_fps - t.elapsed else 0) := by
  simp [recordSession, recLoop_fst]

theorem recordSession_exit (s : CtrlState) (fs : FS) (tb : String) (ticks : List Tick) :
    (recordSession s fs tb ticks).exit = some (exitSpec ticks) := by
  simp [recordSession, recLoop_snd]

theorem recordSession_state (s : CtrlState) (fs : FS) (tb : String) (ticks : List Tick) :
    (recordSession s fs tb ticks).state =
      { s with
        temp_video_path := tb ++ ".avi"
        temp_timestamps_path := tb ++ "_timestamps.csv"
        is_recording :=
          if exitSpec ticks = ExitKind.endRequest then false else s.is_recording
        stop_recording :=
          if exitSpec ticks = ExitKind.endRequest then false else s.stop_recording
        cap := none
        final_video_path := ""
        final_timestamps_path := "" } := by
  by_cases h : exitSpec ticks = ExitKind.endRequest
  · simp [recordSession, recLoop_snd, h]
  · simp [recordSession, recLoop_snd, h]

theorem recordSession_fs (s : CtrlState) (fs : FS) (tb : String) (ticks : List Tick) :
    (recordSession s fs tb ticks).fs =
      finalizeFs s.final_video_path s.final_timestamps_path (tb ++ ".avi")
        (tb ++ "_timestamps.csv") (goodReads ticks) (CsvRow.header :: newRows 0 ticks) fs := by
  by_cases hend : exitSpec ticks = ExitKind.endRequest
  · simp [recordSession, finalizeFs, moveStep, closedFs, recLoop_fst, recLoop_snd, hend]
  · simp [recordSession, finalizeFs, moveStep, closedFs, recLoop_fst, recLoop_snd, hend]

theorem closedFs_lookup_tv {tv tt : String} (htv : tv ≠ tt) (n : Nat)
    (rows : List CsvRow) (fs : FS) :
    fsLookup (closedFs tv tt n rows fs) tv = some (FileData.video n) := by
  unfold closedFs
  rw [fsLookup_fsSet_ne htv, fsLookup_fsSet_self]

theorem closedFs_lookup_tt (tv tt : String) (n : Nat) (rows : List CsvRow) (fs : FS) :
    fsLookup (closedFs tv tt n rows fs) tt = some (FileData.csv rows) := by
  unfold closedFs
  rw [fsLookup_fsSet_self]

theorem moveStep_skip {fp : String} (h : fp = "") (src : String) (fs : FS) :
    moveStep fp src fs = fs := by
  simp [moveStep, h]

theorem moveStep_lookup_final {fp src : String} {fs : FS} {d : FileData}
    (h1 : fp ≠ "") (hsrc : fsLookup fs src = some d) :
    fsLookup (moveStep fp src fs) fp = some d := by
  simp only [moveStep, fsExists_eq, hsrc, Option.isSome_some, Bool.and_true]
  rw [if_pos (by simp [h1])]
  simp [fsMove, hsrc, fsLookup_fsSet_self]

theorem moveStep_lookup_src_none {fp src : String} {fs : FS} {d : FileData}
    (h1 : fp ≠ "") (h2 : src ≠ fp) (hsrc : fsLookup fs src = some d) :
    fsLookup (moveStep fp src fs) src = none := by
  simp only [moveStep, fsExists_eq, hsrc, Option.isSome_some, Bool.and_true]
  rw [if_pos (by simp [h1])]
  simp [fsMove, hsrc]
  rw [fsLookup_fsSet_ne h2, fsLookup_fsRemove_self]

theorem moveStep_lookup_other {fp src q : String} (h1 : q ≠ fp) (h2 : q ≠ src) (fs : FS) :
    fsLookup (moveStep fp src fs) q = fsLookup fs q := by
  unfold moveStep
  by_cases hc : (fp != "" && fsExists fs src) = true
  · rw [if_pos hc]
    unfold fsMove
    cases hl : fsLookup fs src with
    | none => rfl
    | some d => rw [fsLookup_fsSet_ne h1, fsLookup_fsRemove_ne h2]
  · rw [if_neg hc]

theorem temp_video_ne_empty (tb : String) : tb ++ ".avi" ≠ "" := by
  intro h
  have hl := congrArg String.length h
  simp [String.length_append] at hl
  exact absurd hl.2 (by decide)

theorem temp_ts_ne_empty (tb : String) : tb ++ "_timestamps.csv" ≠ "" := by
  intro h
  have hl := congrArg String.length h
  simp [String.length_append] at hl
  exact absurd hl.2 (by decide)

theorem fsLookup_fsRemove_of_none {fs : FS} {p : String} (h : fsLookup fs p = none)
    (q : String) : fsLookup (fsRemove fs q) p = none := by
  by_cases hq : p = q
  · subst hq
    exact fsLookup_fsRemove_self fs p
  · rw [fsLookup_fsRemove_ne hq, h]

theorem stop_fst (s : CtrlState) (fs : FS) (removeOk : String → Bool) :
    (stop s fs removeOk).1 =
      (match s.cap with
       | some c =>
         if c.isOpened then
           { s with stop_flag := true, stop_recording := true,
                    cap := some { c with isOpened := false } }
         else { s with stop_flag := true, stop_recording := true }
       | none => { s with stop_flag := true, stop_recording := true }) := by
  cases hc : s.cap with
  | none => simp [stop, hc]
  | some c =>
    by_cases ho : c.isOpened = true
    · simp [stop, hc, ho]
    · simp [stop, hc, ho]

theorem stop_snd (s : CtrlState) (fs : FS) (removeOk : String → Bool) :
    (stop s fs removeOk).2 =
      (let fs1 :=
        if s.temp_video_path != "" && fsExists fs s.temp_video_path then
          (if removeOk s.temp_video_path then fsRemove fs s.temp_video_path else fs)
        else fs
       if s.temp_timestamps_path != "" && fsExists fs1 s.temp_timestamps_path then
         (if removeOk s.temp_timestamps_path then fsRemove fs1 s.temp_timestamps_path else fs1)
       else fs1) := by
  cases hc : s.cap with
  | none => simp [stop, hc]
  | some c =>
    by_cases ho : c.isOpened = true
    · simp [stop, hc, ho]
    · simp [stop, hc, ho]

theorem fsExists_false_iff (fs : FS) (p : String) :
    fsExists fs p = false ↔ fsLookup fs p = none := by
  cases h : fsLookup fs p <;> simp [fsExists_eq, h]

theorem removeStep_lookup_none {p : String} (fs : FS) (removeOk : String → Bool)
    (hne : p ≠ "") (hok : removeOk p = true) :
    fsLookup (if p != "" && fsExists fs p then
      (if removeOk p then fsRemove fs p else fs) else fs) p = none := by
  by_cases hex : fsExists fs p = true
  · rw [if_pos (by simp [hne, hex]), if_pos hok, fsLookup_fsRemove_self]
  · have h0 : fsLookup fs p = none := by
      rw [← fsExists_false_iff]
      simpa using hex
    by_cases hc : (p != "" && fsExists fs p) = true
    · rw [if_pos hc]
      by_cases hr : removeOk p = true
      · rw [if_pos hr, fsLookup_fsRemove_self]
      · rw [if_neg hr]; exact h0
    · rw [if_neg hc]; exact h0

theorem removeStep_preserves_none {p q : String} (fs : FS) (removeOk : String → Bool)
    (h : fsLookup fs p = none) :
    fsLookup (if q != "" && fsExists fs q then
      (if removeOk q then fsRemove fs q else fs) else fs) p = none := by
  by_cases hc : (q != "" && fsExists fs q) = true
  · rw [if_pos hc]
    by_cases hr : removeOk q = true
    · rw [if_pos hr]
      exact fsLookup_fsRemove_of_none h q
    · rw [if_neg hr]; exact h
  · rw [if_neg hc]; exact h

theorem stop_removes_temp {p : String} (s : CtrlState) (fs : FS) (removeOk : String → Bool)
    (hp : p = s.temp_video_path ∨ p = s.temp_timestamps_path)
    (hne : p ≠ "") (hok : removeOk p = true) :
    fsExists (stop s fs removeOk).2 p = false := by
  rw [stop_snd, fsExists_false_iff]
  rcases hp with hp | hp
  · rw [hp] at hne hok ⊢
    exact removeStep_preserves_none _ removeOk
      (removeStep_lookup_none fs removeOk hne hok)
  · rw [hp] at hne hok ⊢
    exact removeStep_lookup_none _ removeOk hne hok

theorem finalizeFs_video_at_final {fvp ftp tv tt : String} (n : Nat) (rows : List CsvRow)
    (fs : FS) (htv : tv ≠ tt) (h1 : fvp ≠ "") (h2 : fvp ≠ tt) (h3 : fvp ≠ ftp) :
    fsLookup (finalizeFs fvp ftp tv tt n rows fs) fvp = some (FileData.video n) := by
  unfold finalizeFs
  rw [moveStep_lookup_other h3 h2]
  exact moveStep_lookup_final h1 (closedFs_lookup_tv htv n rows fs)

theorem finalizeFs_video_temp_gone {fvp ftp tv tt : String} (n : Nat) (rows : List CsvRow)
    (fs : FS) (htv : tv ≠ tt) (h1 : fvp ≠ "") (h2 : tv ≠ fvp) (h3 : tv ≠ ftp) :
    fsLookup (finalizeFs fvp ftp tv tt n rows fs) tv = none := by
  unfold finalizeFs
  rw [moveStep_lookup_other h3 htv]
  exact moveStep_lookup_src_none h1 h2 (closedFs_lookup_tv htv n rows fs)

theorem finalizeFs_video_stays {fvp ftp tv tt : String} (n : Nat) (rows : List CsvRow)
    (fs : FS) (htv : tv ≠ tt) (h1 : fvp = "") (h3 : tv ≠ ftp) :
    fsLookup (finalizeFs fvp ftp tv tt n rows fs) tv = some (FileData.video n) := by
  unfold finalizeFs
  rw [moveStep_skip h1, moveStep_lookup_other h3 htv]
  exact closedFs_lookup_tv htv n rows fs

theorem afterVideoMove_lookup_tt {fvp tv tt : String} (htv : tv ≠ tt) (h2 : tt ≠ fvp)
    (n : Nat) (rows : List CsvRow) (fs : FS) :
    fsLookup (moveStep fvp tv (closedFs tv tt n rows fs)) tt = some (FileData.csv rows) := by
  rw [moveStep_lookup_other h2 (Ne.symm htv)]
  exact closedFs_lookup_tt tv tt n rows fs

theorem finalizeFs_csv_at_final {fvp ftp tv tt : String} (n : Nat) (rows : List CsvRow)
    (fs : FS) (htv : tv ≠ tt) (h1 : ftp ≠ "") (h2 : tt ≠ fvp) :
    fsLookup (finalizeFs fvp ftp tv tt n rows fs) ftp = some (FileData.csv rows) := by
  unfold finalizeFs
  exact moveStep_lookup_final h1 (afterVideoMove_lookup_tt htv h2 n rows fs)

theorem finalizeFs_csv_temp_gone {fvp ftp tv tt : String} (n : Nat) (rows : List CsvRow)
    (fs : FS) (htv : tv ≠ tt) (h1 : ftp ≠ "") (h2 : tt ≠ fvp) (h3 : tt ≠ ftp) :
    fsLookup (finalizeFs fvp ftp tv tt n rows fs) tt = none := by
  unfold finalizeFs
  exact moveStep_lookup_src_none h1 h3 (afterVideoMove_lookup_tt htv h2 n rows fs)

theorem finalizeFs_csv_stays {fvp ftp tv tt : String} (n : Nat) (rows : List CsvRow)
    (fs : FS) (htv : tv ≠ tt) (h1 : ftp = "") (h2 : tt ≠ fvp) :
    fsLookup (finalizeFs fvp ftp tv tt n rows fs) tt = some (FileData.csv rows) := by
  unfold finalizeFs
  rw [moveStep_skip h1]
  exact afterVideoMove_lookup_tt htv h2 n rows fs

theorem clampNonneg_eq_max (x : ℚ) : (if x > 0 then x else 0) = max 0 x := by
  rcases le_or_lt x 0 with h | h
  · rw [if_neg (not_lt.mpr h), max_eq_left h]
  · rw [if_pos h, max_eq_right h.le]

theorem startBranch_available {s : CtrlState} (h : capAvailable s.cap = true)
    (fs : FS) (tb : String) (ticks : List Tick) :
    startBranch s fs tb ticks =
      recordSession { s with start_recording := false, is_recording := true } fs tb ticks := by
  simp [startBranch, h]

theorem startBranch_unavailable {s : CtrlState} (h : capAvailable s.cap = false)
    (fs : FS) (tb : String) (ticks : List Tick) :
    startBranch s fs tb ticks =
      { state := { s with start_recording := false, is_recording := false }
        fs := fs
        statuses := [unavailableMsg]
        tsRows := []
        vframes := 0
        sleeps := []
        exit := none } := by
  simp [startBranch, h]

/-- C1: for every recording session that ends via the normal end-request
after exactly N successful frame reads (and any number of failed reads),
the timestamp-index file written by the controller contains exactly N+1
rows (the header plus one row per successful read) and the emitted
saved status reports exactly N frames. -/
theorem C1_index_rows_and_saved_status (s : CtrlState) (fs : FS) (tb : String)
    (ticks : List Tick) (hcap : capAvailable s.cap = true)
    (hend : exitSpec ticks = ExitKind.endRequest) :
    (startBranch s fs tb ticks).tsRows.length = goodReads ticks + 1 ∧
    (startBranch s fs tb ticks).statuses = [startedMsg, savedMsg (goodReads ticks)] := by
  rw [startBranch_available hcap]
  refine ⟨?_, ?_⟩
  · rw [recordSession_tsRows]
    simp [newRows_length]
  · rw [recordSession_statuses]

theorem C1_index_rows_and_saved_status_witness :
    (capAvailable sampleState.cap = true ∧ exitSpec sampleTicks = ExitKind.endRequest) ∧
    ((startBranch sampleState [] "t" sampleTicks).tsRows.length = goodReads sampleTicks + 1 ∧
     (startBranch sampleState [] "t" sampleTicks).statuses =
       [startedMsg, savedMsg (goodReads sampleTicks)]) :=
  ⟨⟨by decide, by decide⟩,
   C1_index_rows_and_saved_status sampleState [] "t" sampleTicks (by decide) (by decide)⟩

/-- C2: the frame numbers appended to the index form the contiguous
sequence 0..N-1 (no gaps, no repeats) for any interleaving of successful
and failed reads; moreover a failed read is a no-op for the loop state —
no row, no video write, no frame-number increment — and does not end the
session (the loop recurses into the rest of the trace). -/
theorem C2_frame_numbers_contiguous (s : CtrlState) (fs : FS) (tb : String)
    (ticks : List Tick) (hcap : capAvailable s.cap = true) :
    (startBranch s fs tb ticks).tsRows.filterMap getFn = List.range (goodReads ticks) ∧
    (∀ (fi : ℚ) (acc : LoopAcc) (t : Tick) (rest : List Tick),
      t.stopFlagAtHead = false → t.ret = false → t.stopRec = false →
      recLoop fi acc (t :: rest) =
        recLoop fi { acc with sleeps := acc.sleeps ++
          [if fi - t.elapsed > 0 then fi - t.elapsed else 0] } rest) := by
  constructor
  · rw [startBranch_available hcap, recordSession_tsRows]
    simp [getFn, newRows_filterMap_getFn, List.range_eq_range']
  · intro fi acc t rest h1 h2 h3
    simp [recLoop, h1, h2, h3]

theorem C2_frame_numbers_contiguous_witness :
    capAvailable sampleState.cap = true ∧
    (startBranch sampleState [] "t" sampleTicks).tsRows.filterMap getFn =
      List.range (goodReads sampleTicks) :=
  ⟨by decide,
   (C2_frame_numbers_contiguous sampleState [] "t" sampleTicks (by decide)).1⟩

/-- C3: a begin-request observed while the device handle is absent or
closed emits the device-unavailable status, touches no files, leaves the
controller idle (only the begin-request flag is cleared and
`is_recording` lowered), and a future begin-request with a fresh open
handle starts a session normally. -/
theorem C3_unavailable_begin (s : CtrlState) (fs : FS) (tb : String) (ticks : List Tick)
    (hcap : capAvailable s.cap = false) :
    (startBranch s fs tb ticks).statuses = [unavailableMsg] ∧
    (startBranch s fs tb ticks).fs = fs ∧
    (startBranch s fs tb ticks).state =
      { s with start_recording := false, is_recording := false } ∧
    (∀ (c : Cap) (fs2 : FS) (tb2 : String) (ticks2 : List Tick), c.isOpened = true →
      (startBranch { (startBranch s fs tb ticks).state with
          cap := some c, start_recording := true } fs2 tb2 ticks2).statuses =
        [startedMsg, savedMsg (goodReads ticks2)]) := by
  rw [startBranch_unavailable hcap]
  refine ⟨rfl, rfl, rfl, ?_⟩
  intro c fs2 tb2 ticks2 hc
  rw [startBranch_available (by simpa [capAvailable] using hc)]
  rw [recordSession_statuses]

theorem C3_unavailable_begin_witness :
    capAvailable c3State.cap = false ∧
    ((startBranch c3State [] "t" sampleTicks).statuses = [unavailableMsg] ∧
     (startBranch c3State [] "t" sampleTicks).fs = [] ∧
     (startBranch c3State [] "t" sampleTicks).state =
       { c3State with start_recording := false, is_recording := false }) :=
  ⟨by decide,
   ⟨(C3_unavailable_begin c3State [] "t" sampleTicks (by decide)).1,
    (C3_unavailable_begin c3State [] "t" sampleTicks (by decide)).2.1,
    (C3_unavailable_begin c3State [] "t" sampleTicks (by decide)).2.2.1⟩⟩

/-- C4: on session end each working artifact is renamed — not copied — to
its final path exactly when that final path is non-empty (the source file
is gone and the destination holds the written content; with an empty
final path the content stays at the temp path), and both final-path
fields are cleared afterwards, so a final path is consumed exactly once. -/
theorem C4_finalization_rename_iff (s : CtrlState) (fs : FS) (tb : String)
    (ticks : List Tick) (hcap : capAvailable s.cap = true)
    (hend : exitSpec ticks = ExitKind.endRequest)
    (hv1 : s.final_video_path ≠ tb ++ ".avi")
    (hv2 : s.final_video_path ≠ tb ++ "_timestamps.csv")
    (ht1 : s.final_timestamps_path ≠ tb ++ ".avi")
    (ht2 : s.final_timestamps_path ≠ tb ++ "_timestamps.csv") :
    ((startBranch s fs tb ticks).state.final_video_path = "" ∧
     (startBranch s fs tb ticks).state.final_timestamps_path = "") ∧
    (s.final_video_path ≠ "" → s.final_video_path ≠ s.final_timestamps_path →
      fsLookup (startBranch s fs tb ticks).fs s.final_video_path =
        some (FileData.video (goodReads ticks)) ∧
      fsExists (startBranch s fs tb ticks).fs (tb ++ ".avi") = false) ∧
    (s.final_video_path = "" →
      fsLookup (startBranch s fs tb ticks).fs (tb ++ ".avi") =
        some (FileData.video (goodReads ticks))) ∧
    (s.final_timestamps_path ≠ "" →
      fsLookup (startBranch s fs tb ticks).fs s.final_timestamps_path =
        some (FileData.csv (CsvRow.header :: newRows 0 ticks)) ∧
      fsExists (startBranch s fs tb ticks).fs (tb ++ "_timestamps.csv") = false) ∧
    (s.final_timestamps_path = "" →
      fsLookup (startBranch s fs tb ticks).fs (tb ++ "_timestamps.csv") =
        some (FileData.csv (CsvRow.header :: newRows 0 ticks))) := by
  rw [startBranch_available hcap]
  have htv := temp_video_ne_temp_ts tb
  refine ⟨?_, ?_, ?_, ?_, ?_⟩
  · rw [recordSession_state]
    exact ⟨rfl, rfl⟩
  · intro h1 hvt
    rw [recordSession_fs]
    constructor
    · exact finalizeFs_video_at_final _ _ _ htv h1 hv2 hvt
    · rw [fsExists_false_iff]
      exact finalizeFs_video_temp_gone _ _ _ htv h1 (Ne.symm hv1) (Ne.symm ht1)
  · intro h1
    rw [recordSession_fs]
    exact finalizeFs_video_stays _ _ _ htv h1 (Ne.symm ht1)
  · intro h1
    rw [recordSession_fs]
    constructor
    · exact finalizeFs_csv_at_final _ _ _ htv h1 (Ne.symm hv2)
    · rw [fsExists_false_iff]
      exact finalizeFs_csv_temp_gone _ _ _ htv h1 (Ne.symm hv2) (Ne.symm ht2)
  · intro h1
    rw [recordSession_fs]
    have h2 : tb ++ "_timestamps.csv" ≠ s.final_video_path := Ne.symm hv2
    exact finalizeFs_csv_stays _ _ _ htv h1 h2

theorem C4_finalization_rename_iff_witness :
    (capAvailable c4State.cap = true ∧ exitSpec sampleTicks = ExitKind.endRequest ∧
     c4State.final_video_path ≠ "t" ++ ".avi" ∧
     c4State.final_video_path ≠ "t" ++ "_timestamps.csv" ∧
     c4State.final_timestamps_path ≠ "t" ++ ".avi" ∧
     c4State.final_timestamps_path ≠ "t" ++ "_timestamps.csv" ∧
     c4State.final_video_path ≠ "" ∧
     c4State.final_video_path ≠ c4State.final_timestamps_path) ∧
    ((startBranch c4State [] "t" sampleTicks).state.final_video_path = "" ∧
     (startBranch c4State [] "t" sampleTicks).state.final_timestamps_path = "") ∧
    (fsLookup (startBranch c4State [] "t" sampleTicks).fs c4State.final_video_path =
       some (FileData.video (goodReads sampleTicks)) ∧
     fsExists (startBranch c4State [] "t" sampleTicks).fs ("t" ++ ".avi") = false) :=
  ⟨⟨by decide, by decide, by decide, by decide, by decide, by decide, by decide, by decide⟩,
   (C4_finalization_rename_iff c4State [] "t" sampleTicks (by decide) (by decide)
      (by decide) (by decide) (by decide) (by decide)).1,
   ((C4_finalization_rename_iff c4State [] "t" sampleTicks (by decide) (by decide)
      (by decide) (by decide) (by decide) (by decide)).2.1 (by decide) (by decide))⟩

/-- C5 counterexample: a session that ends via the normal end-request with
no final paths set leaves both working artifacts on disk — they are not
removed, contradicting the claim that they are removed rather than left
on disk. -/
theorem C5_counterexample :
    (startBranch sampleState [] "t" c5Ticks).exit = some ExitKind.endRequest ∧
    sampleState.final_video_path = "" ∧
    sampleState.final_timestamps_path = "" ∧
    fsExists (startBranch sampleState [] "t" c5Ticks).fs ("t" ++ ".avi") = true ∧
    fsExists (startBranch sampleState [] "t" c5Ticks).fs ("t" ++ "_timestamps.csv") = true := by
  decide

/-- C5 amended: after a normal stop with no final paths set, no move to a
final path happens, but the working artifacts are NOT removed by the
normal stop — they remain on disk at the temp paths, and are removed only
by a subsequent forced stop (`stop`), when its deletions succeed. -/
theorem C5_amended_temps_survive_until_forced_stop (s : CtrlState) (fs : FS)
    (tb : String) (ticks : List Tick) (hcap : capAvailable s.cap = true)
    (hend : exitSpec ticks = ExitKind.endRequest)
    (hv : s.final_video_path = "") (ht : s.final_timestamps_path = "") :
    fsExists (startBranch s fs tb ticks).fs (tb ++ ".avi") = true ∧
    fsExists (startBranch s fs tb ticks).fs (tb ++ "_timestamps.csv") = true ∧
    (∀ removeOk : String → Bool,
      removeOk (tb ++ ".avi") = true → removeOk (tb ++ "_timestamps.csv") = true →
      fsExists (stop (startBranch s fs tb ticks).state (startBranch s fs tb ticks).fs
        removeOk).2 (tb ++ ".avi") = false ∧
      fsExists (stop (startBranch s fs tb ticks).state (startBranch s fs tb ticks).fs
        removeOk).2 (tb ++ "_timestamps.csv") = false) := by
  rw [startBranch_available hcap]
  have htv := temp_video_ne_temp_ts tb
  refine ⟨?_, ?_, ?_⟩
  · rw [recordSession_fs, fsExists_eq]
    have h3 : tb ++ ".avi" ≠ s.final_timestamps_path := by
      rw [ht]; exact temp_video_ne_empty tb
    rw [finalizeFs_video_stays _ _ _ htv hv h3]
    rfl
  · rw [recordSession_fs, fsExists_eq]
    have h2 : tb ++ "_timestamps.csv" ≠ s.final_video_path := by
      rw [hv]; exact temp_ts_ne_empty tb
    rw [finalizeFs_csv_stays _ _ _ htv ht h2]
    rfl
  · intro removeOk hok1 hok2
    constructor
    · exact stop_removes_temp _ _ removeOk
        (Or.inl (by rw [recordSession_state])) (temp_video_ne_empty tb) hok1
    · exact stop_removes_temp _ _ removeOk
        (Or.inr (by rw [recordSession_state])) (temp_ts_ne_empty tb) hok2

theorem C5_amended_temps_survive_until_forced_stop_witness :
    (capAvailable sampleState.cap = true ∧ exitSpec c5Ticks = ExitKind.endRequest ∧
     sampleState.final_video_path = "" ∧ sampleState.final_timestamps_path = "") ∧
    (fsExists (startBranch sampleState [] "t" c5Ticks).fs ("t" ++ ".avi") = true ∧
     fsExists (startBranch sampleState [] "t" c5Ticks).fs ("t" ++ "_timestamps.csv") = true) :=
  ⟨⟨by decide, by decide, rfl, rfl⟩,
   (C5_amended_temps_survive_until_forced_stop sampleState [] "t" c5Ticks
      (by decide) (by decide) rfl rfl).1,
   (C5_amended_temps_survive_until_forced_stop sampleState [] "t" c5Ticks
      (by decide) (by decide) rfl rfl).2.1⟩

/-- C6: a forced stop issued at any point leaves the controller in the
terminal state (`stop_flag` raised) for every possible deletion outcome —
deletion failures are swallowed and the stop still completes — and every
working artifact named by the controller state whose deletion succeeds is
gone from disk afterwards. -/
theorem C6_forced_stop_terminal_cleanup (s : CtrlState) (fs : FS)
    (removeOk : String → Bool) :
    (stop s fs removeOk).1.stop_flag = true ∧
    (∀ p, (p = s.temp_video_path ∨ p = s.temp_timestamps_path) → p ≠ "" →
      removeOk p = true → fsExists (stop s fs removeOk).2 p = false) := by
  constructor
  · rw [stop_fst]
    cases hc : s.cap with
    | none => rfl
    | some c =>
      by_cases ho : c.isOpened = true
      · simp [ho]
      · simp [ho]
  · intro p hp hne hok
    exact stop_removes_temp s fs removeOk hp hne hok

theorem C6_forced_stop_terminal_cleanup_witness :
    (("w.avi" = c6State.temp_video_path ∨ "w.avi" = c6State.temp_timestamps_path) ∧
      ("w.avi" : String) ≠ "" ∧ (fun _ => true) "w.avi" = true) ∧
    ((stop c6State c6Fs (fun _ => true)).1.stop_flag = true ∧
     fsExists (stop c6State c6Fs (fun _ => true)).2 "w.avi" = false) :=
  ⟨⟨Or.inl rfl, by decide, rfl⟩,
   (C6_forced_stop_terminal_cleanup c6State c6Fs (fun _ => true)).1,
   (C6_forced_stop_terminal_cleanup c6State c6Fs (fun _ => true)).2 "w.avi"
     (Or.inl rfl) (by decide) rfl⟩

/-- C7: every completed iteration of the recording loop sleeps exactly
max(0, period − its own elapsed work time), with period = 1/target_rate;
the sleep is a function of that iteration's own elapsed time alone, so an
overrunning iteration sleeps zero and no compensating reduction is applied
to any later iteration. -/
theorem C7_pacing_sleep (s : CtrlState) (fs : FS) (tb : String) (ticks : List Tick)
    (hcap : capAvailable s.cap = true) :
    (startBranch s fs tb ticks).sleeps =
      (continuingTicks ticks).map (fun t => max 0 (1 / s.target_fps - t.elapsed)) := by
  rw [startBranch_available hcap, recordSession_sleeps]
  simp only [clampNonneg_eq_max]

theorem C7_pacing_sleep_witness :
    capAvailable sampleState.cap = true ∧
    (startBranch sampleState [] "t" sampleTicks).sleeps =
      (continuingTicks sampleTicks).map
        (fun t => max 0 (1 / sampleState.target_fps - t.elapsed)) :=
  ⟨by decide, C7_pacing_sleep sampleState [] "t" sampleTicks (by decide)⟩

/-- C8: when the wall-clock readings supplied to the loop are
non-decreasing, the timestamps of the data rows recorded in the index are
non-decreasing across consecutive frame numbers (data rows keep the order
in which they were appended). -/
theorem C8_timestamps_monotone (s : CtrlState) (fs : FS) (tb : String) (ticks : List Tick)
    (hcap : capAvailable s.cap = true)
    (hmono : List.Pairwise (fun a b => a ≤ b) (ticks.map (fun t => t.ts))) :
    List.Pairwise (fun a b => a ≤ b) ((startBranch s fs tb ticks).tsRows.filterMap getTs) := by
  rw [startBranch_available hcap, recordSession_tsRows]
  have heq : (CsvRow.header :: newRows 0 ticks).filterMap getTs =
      ((consumed ticks).filter (fun t => t.ret)).map (fun t => t.ts) := by
    simp [getTs, newRows_filterMap_getTs]
  rw [heq]
  have hsub : List.Sublist
      (((consumed ticks).filter (fun t => t.ret)).map (fun t => t.ts))
      (ticks.map (fun t => t.ts)) :=
    ((List.filter_sublist (consumed ticks)).trans (consumed_sublist ticks)).map
      (fun t => t.ts)
  exact List.Pairwise.sublist hsub hmono

theorem C8_timestamps_monotone_witness :
    (capAvailable sampleState.cap = true ∧
     List.Pairwise (fun a b => a ≤ b) (sampleTicks.map (fun t => t.ts))) ∧
    List.Pairwise (fun a b => a ≤ b)
      ((startBranch sampleState [] "t" sampleTicks).tsRows.filterMap getTs) :=
  ⟨⟨by decide, by decide⟩,
   C8_timestamps_monotone sampleState [] "t" sampleTicks (by decide) (by decide)⟩

theorem runLoop_nil (s : CtrlState) (fs : FS) (log : List String) :
    runLoop s fs log [] = (s, fs, log) := rfl

theorem runLoop_cons_begin {s : CtrlState} (h : s.stop_flag = false) (fs : FS)
    (log : List String) (tb : String) (ticks : List Tick) (rest : List OuterEvent) :
    runLoop s fs log (OuterEvent.begin tb ticks :: rest) =
      runLoop (startBranch { s with start_recording := true } fs tb ticks).state
        (startBranch { s with start_recording := true } fs tb ticks).fs
        (log ++ (startBranch { s with start_recording := true } fs tb ticks).statuses)
        rest := by
  rw [runLoop]
  rw [if_neg (by simp [h])]

/-- C9: a session ending via the normal end-request leaves the controller
with its device-handle field cleared to `none`; a subsequent begin-request
processed by the outer loop without a fresh `set_capture` therefore takes
the device-unavailable branch — the unavailable status is appended and the
file system is untouched by the second request. -/
theorem C9_cap_consumed_after_normal_stop (s : CtrlState) (fs : FS) (tb1 tb2 : String)
    (ticks1 ticks2 : List Tick)
    (hflag : s.stop_flag = false)
    (hcap : capAvailable s.cap = true)
    (hend : exitSpec ticks1 = ExitKind.endRequest) :
    (startBranch { s with start_recording := true } fs tb1 ticks1).state.cap = none ∧
    (runLoop s fs [] [OuterEvent.begin tb1 ticks1, OuterEvent.begin tb2 ticks2]).2.1 =
      (startBranch { s with start_recording := true } fs tb1 ticks1).fs ∧
    (runLoop s fs [] [OuterEvent.begin tb1 ticks1, OuterEvent.begin tb2 ticks2]).2.2 =
      (startBranch { s with start_recording := true } fs tb1 ticks1).statuses ++
        [unavailableMsg] := by
  have hcap1 : capAvailable ({ s with start_recording := true } : CtrlState).cap = true := hcap
  have hr1 := startBranch_available hcap1 fs tb1 ticks1
  have hcapnone :
      (startBranch { s with start_recording := true } fs tb1 ticks1).state.cap = none := by
    rw [hr1, recordSession_state]
  have hsf1 :
      (startBranch { s with start_recording := true } fs tb1 ticks1).state.stop_flag
        = false := by
    rw [hr1, recordSession_state]
    by_cases h : exitSpec ticks1 = ExitKind.endRequest
    · simp [h, hflag]
    · simp [h, hflag]
  have hu := @startBranch_unavailable
    { (startBranch { s with start_recording := true } fs tb1 ticks1).state with
      start_recording := true }
    (by simp [capAvailable, hcapnone])
    (startBranch { s with start_recording := true } fs tb1 ticks1).fs tb2 ticks2
  refine ⟨hcapnone, ?_, ?_⟩
  · rw [runLoop_cons_begin hflag, runLoop_cons_begin hsf1, runLoop_nil, hu]
  · rw [runLoop_cons_begin hflag, runLoop_cons_begin hsf1, runLoop_nil, hu]
    simp

theorem C9_cap_consumed_after_normal_stop_witness :
    (sampleState.stop_flag = false ∧ capAvailable sampleState.cap = true ∧
     exitSpec sampleTicks = ExitKind.endRequest) ∧
    (startBranch { sampleState with start_recording := true } [] "a" sampleTicks).state.cap
      = none ∧
    (runLoop sampleState [] [] [OuterEvent.begin "a" sampleTicks,
        OuterEvent.begin "b" []]).2.2 =
      (startBranch { sampleState with start_recording := true } [] "a" sampleTicks).statuses
        ++ [unavailableMsg] :=
  ⟨⟨rfl, by decide, by decide⟩,
   (C9_cap_consumed_after_normal_stop sampleState [] "a" "b" sampleTicks []
      rfl (by decide) (by decide)).1,
   (C9_cap_consumed_after_normal_stop sampleState [] "a" "b" sampleTicks []
      rfl (by decide) (by decide)).2.2⟩

/-- C10: when a forced stop is requested during a session and the
recording loop observes the raised stop flag at its head before the worker
is killed, the loop exits and the full normal end-of-session sequence
still runs: the device handle is released and cleared, the saved status
with the frame count is emitted, the final-path fields are cleared, and
each working artifact is moved to its final path when one was set — the
artifacts are finalized, not merely cleaned up. -/
theorem C10_forced_stop_observed_finalizes (s : CtrlState) (fs : FS) (tb : String)
    (ticks : List Tick) (hcap : capAvailable s.cap = true)
    (hstop : exitSpec ticks = ExitKind.stopFlag) :
    (startBranch s fs tb ticks).statuses = [startedMsg, savedMsg (goodReads ticks)] ∧
    (startBranch s fs tb ticks).state.cap = none ∧
    (startBranch s fs tb ticks).state.final_video_path = "" ∧
    (startBranch s fs tb ticks).state.final_timestamps_path = "" ∧
    (s.final_video_path ≠ "" → s.final_video_path ≠ s.final_timestamps_path →
      s.final_video_path ≠ tb ++ "_timestamps.csv" →
      fsLookup (startBranch s fs tb ticks).fs s.final_video_path =
        some (FileData.video (goodReads ticks))) ∧
    (s.final_timestamps_path ≠ "" → s.final_video_path ≠ tb ++ "_timestamps.csv" →
      fsLookup (startBranch s fs tb ticks).fs s.final_timestamps_path =
        some (FileData.csv (CsvRow.header :: newRows 0 ticks))) := by
  rw [startBranch_available hcap]
  have htv := temp_video_ne_temp_ts tb
  refine ⟨recordSession_statuses _ _ _ _, ?_, ?_, ?_, ?_, ?_⟩
  · rw [recordSession_state]
  · rw [recordSession_state]
  · rw [recordSession_state]
  · intro h1 h2 h3
    rw [recordSession_fs]
    exact finalizeFs_video_at_final _ _ _ htv h1 h3 h2
  · intro h1 h2
    rw [recordSession_fs]
    exact finalizeFs_csv_at_final _ _ _ htv h1 (Ne.symm h2)

theorem C10_forced_stop_observed_finalizes_witness :
    (capAvailable c4State.cap = true ∧ exitSpec c10Ticks = ExitKind.stopFlag ∧
     c4State.final_video_path ≠ "" ∧
     c4State.final_video_path ≠ c4State.final_timestamps_path ∧
     c4State.final_video_path ≠ "t" ++ "_timestamps.csv") ∧
    ((startBranch c4State [] "t" c10Ticks).statuses =
      [startedMsg, savedMsg (goodReads c10Ticks)] ∧
     (startBranch c4State [] "t" c10Ticks).state.cap = none ∧
     fsLookup (startBranch c4State [] "t" c10Ticks).fs c4State.final_video_path =
       some (FileData.video (goodReads c10Ticks))) :=
  ⟨⟨by decide, by decide, by decide, by decide, by decide⟩,
   (C10_forced_stop_observed_finalizes c4State [] "t" c10Ticks (by decide) (by decide)).1,
   (C10_forced_stop_observed_finalizes c4State [] "t" c10Ticks (by decide) (by decide)).2.1,
   ((C10_forced_stop_observed_finalizes c4State [] "t" c10Ticks (by decide)
      (by decide)).2.2.2.2.1 (by decide) (by decide) (by decide))⟩

end WebcamCapture
